import Mathlib

/-!
Shallow embedding of the Swiss pairing and scoring core of the
LRKnightsChess repository, together with theorems checking the
natural-language specification against it.

Sources embedded here:
- `src/services/pairingEngine.js` : `chooseColorsForPair`, `uscfPairingEngine`,
  `computeTieBreaks`;
- `src/services/firestoreService.js` : `startNextRound`, `updateResult`
  (with its `ptsFromStr` helper), `tdForceColor`;
- `src/App.js` (Google-Sheets front end) : the embedded copy of
  `chooseColorsForPair` and the standings comparator of
  `computeStandingsGrid`.

Modelling conventions:
- JavaScript numbers that hold scores or tiebreaks are modelled in
  fixed-point milli-points (`ℤ`, 1000 = one point, 500 = half a point).
  Every value these programs reach is a multiple of a quarter point: IEEE
  doubles are exact there, the halving in the Sonneborn-Berger sum is
  exact there, and the source's `+x.toFixed(3)` round-trip is the
  identity there, so `toFixed3` is the identity on this representation.
- Player ids (opaque strings in the source, compared only for equality)
  are modelled as `ℕ`; names stay `String` and `localeCompare` on them is
  modelled as the lexicographic order on `String`.
- `Array.prototype.sort` (stable since ES2019) is modelled by a stable
  insertion sort `jsSortBy` driven by the same comparator; for the
  consistent comparators used in the source, every stable sort produces
  the same output.
- Firestore-transaction code is modelled by explicit state passing; each
  `tx.update` becomes a functional update applied in program order, so a
  later update to the same document fields overwrites an earlier one,
  exactly as in a committed Firestore transaction.  Thrown errors become
  `Except.error` (aborting the transaction, i.e. discarding all updates).
-/

/-- A played colour, `"W"` or `"B"` in the source. -/
inductive Col where
  | W : Col
  | B : Col
deriving DecidableEq, Repr

/-- One entry of a player's `results` array:
`{round, oppId, result, isBye}`.  `result` is in milli-points
(1000, 500 or 0 for a win, draw or loss). -/
structure ResultEntry where
  round : Nat
  oppId : Option Nat
  result : ℤ
  isBye : Bool
deriving DecidableEq, Repr

/-- A player record.  The four tiebreak fields are written by
`computeTieBreaks`; on raw records the source reads them through an
`|| 0` guard, which the default value 0 models. -/
structure Player where
  id : Nat
  name : String
  rating : Nat
  score : ℤ
  opponents : List Nat
  colors : List Col
  results : List ResultEntry
  hadBye : Bool
  withdrawn : Bool
  buchholz : ℤ := 0
  median : ℤ := 0
  sb : ℤ := 0
  cumulative : ℤ := 0
deriving DecidableEq, Repr

/-- A pairing `{whiteId, blackId, isBye, result, tdNote}`.  `board` is
implicit as the position in the round's pairing list. -/
structure Pairing where
  whiteId : Nat
  blackId : Option Nat
  isBye : Bool
  result : Option String
  tdNote : Option String
deriving DecidableEq, Repr

/-- A round `{number, pairings}`. -/
structure Round where
  number : Nat
  pairings : List Pairing
deriving DecidableEq, Repr

/-- `+x.toFixed(3)`: on milli-point values (every multiple of 1/1000 of a
point, which covers all quarter-point multiples the programs produce) the
round-trip through a 3-decimal string is exact, so it is the identity. -/
def toFixed3 (q : ℤ) : ℤ := q

/-- Stable insertion of `a` into `l`: `a` goes in front of the first
element that must come strictly after it according to `cmp`. -/
def jsInsert (cmp : α → α → ℤ) (a : α) : List α → List α
  | [] => [a]
  | b :: l => if cmp a b < 0 then a :: b :: l else b :: jsInsert cmp a l

/-- Stable sort with a JavaScript-style numeric comparator
(model of `Array.prototype.sort`). -/
def jsSortBy (cmp : α → α → ℤ) (l : List α) : List α :=
  l.foldl (fun acc a => jsInsert cmp a acc) []

/-- Sign of `a.name.localeCompare(b.name)`, modelled with the
lexicographic order on `String`. -/
def nameCmp (a b : String) : ℤ :=
  if a < b then -1 else if b < a then 1 else 0

/-- Number of `"W"` entries in a colour history. -/
def countW (cs : List Col) : Nat := (cs.filter (· = Col.W)).length

/-- Number of `"B"` entries in a colour history. -/
def countB (cs : List Col) : Nat := (cs.filter (· = Col.B)).length

/-- `colors.slice(-2)`: the last two colours (the whole list when it is
shorter). -/
def lastTwo (cs : List Col) : List Col := cs.drop (cs.length - 2)

/-- `chooseColorsForPair` from `src/services/pairingEngine.js`
(lines 352-370): returns `(whiteId, blackId)`.
`slice(-2).join('') === 'WW'` is `lastTwo = [W, W]`, and the white/black
counts `aW, aB, bW, bB` drive the colour-balance rules. -/
def chooseColorsForPair (pA pB : Player) : Nat × Nat :=
  let aW := countW pA.colors
  let aB := countB pA.colors
  let bW := countW pB.colors
  let bB := countB pB.colors
  let aLast := lastTwo pA.colors
  let bLast := lastTwo pB.colors
  if aLast = [Col.W, Col.W] ∧ bLast ≠ [Col.W, Col.W] then (pB.id, pA.id)
  else if aLast = [Col.B, Col.B] ∧ bLast ≠ [Col.B, Col.B] then (pA.id, pB.id)
  else if bLast = [Col.W, Col.W] ∧ aLast ≠ [Col.W, Col.W] then (pA.id, pB.id)
  else if bLast = [Col.B, Col.B] ∧ aLast ≠ [Col.B, Col.B] then (pB.id, pA.id)
  else if aW ≤ aB ∧ bW > bB then (pA.id, pB.id)
  else if bW ≤ bB ∧ aW > aB then (pB.id, pA.id)
  else if pA.rating > pB.rating then (pB.id, pA.id)
  else (pA.id, pB.id)

/-- The second copy of `chooseColorsForPair`, embedded in the
Google-Sheets front end (`src/App.js`, lines 50-65).  It differs from the
pairing-engine copy in exactly one token: the sixth guard tests
`aW > bB` where the engine tests `aW > aB`. -/
def chooseColorsForPairSheets (pA pB : Player) : Nat × Nat :=
  let aW := countW pA.colors
  let aB := countB pA.colors
  let bW := countW pB.colors
  let bB := countB pB.colors
  let aLast := lastTwo pA.colors
  let bLast := lastTwo pB.colors
  if aLast = [Col.W, Col.W] ∧ bLast ≠ [Col.W, Col.W] then (pB.id, pA.id)
  else if aLast = [Col.B, Col.B] ∧ bLast ≠ [Col.B, Col.B] then (pA.id, pB.id)
  else if bLast = [Col.W, Col.W] ∧ aLast ≠ [Col.W, Col.W] then (pA.id, pB.id)
  else if bLast = [Col.B, Col.B] ∧ aLast ≠ [Col.B, Col.B] then (pB.id, pA.id)
  else if aW ≤ aB ∧ bW > bB then (pA.id, pB.id)
  else if bW ≤ bB ∧ aW > bB then (pB.id, pA.id)
  else if pA.rating > pB.rating then (pB.id, pA.id)
  else (pA.id, pB.id)

/-- `ptsFromStr` from `updateResult` in `src/services/firestoreService.js`
(lines 185-191), in milli-points: `null`/`""` and every unrecognised token
map to `(0, 0)`; there is no error path. -/
def ptsFromStr (res : Option String) : ℤ × ℤ :=
  match res with
  | none => (0, 0)
  | some s =>
      if s = "" then (0, 0)
      else if s = "1-0" then (1000, 0)
      else if s = "0-1" then (0, 1000)
      else if s = "0.5-0.5" ∨ s = "½-½" then (500, 500)
      else (0, 0)

/-- The standings comparator of `computeStandingsGrid`
(`src/App.js`, lines 621-628): score, buchholz, median, sb, cumulative,
rating, all descending.  There is no direct-encounter step and no name
step; the comparator returns 0 on players equal in all six fields. -/
def standingsCmp (a b : Player) : ℤ :=
  if b.score ≠ a.score then b.score - a.score
  else if b.buchholz ≠ a.buchholz then b.buchholz - a.buchholz
  else if b.median ≠ a.median then b.median - a.median
  else if b.sb ≠ a.sb then b.sb - a.sb
  else if b.cumulative ≠ a.cumulative then b.cumulative - a.cumulative
  else (b.rating : ℤ) - (a.rating : ℤ)

/-- Placeholder record used as lookup default; every lookup performed by
the embedded programs resolves inside the player list, so the default is
never observed. -/
def dummyPlayer (pid : Nat) : Player :=
  { id := pid, name := "", rating := 0, score := 0, opponents := [], colors := [],
    results := [], hadBye := false, withdrawn := false }

/-- `players.find(x => x.id === id)` (first match). -/
def findP (ps : List Player) (pid : Nat) : Option Player :=
  ps.find? (fun p => p.id = pid)

/-- `players.find(x => x.id === id) || t`: the engine only looks up ids of
players present in the list, where the fallback coincides with the found
object. -/
def getP (ps : List Player) (pid : Nat) : Player :=
  (findP ps pid).getD (dummyPlayer pid)

/-- Replace the first player with the given id (JS mutation of the object
returned by `players.find`). -/
def updateFirst (ps : List Player) (pid : Nat) (f : Player → Player) : List Player :=
  match ps with
  | [] => []
  | p :: rest => if p.id = pid then f p :: rest else p :: updateFirst rest pid f

/-- `havePlayed(a, b)` (pairingEngine.js 347-350), read off the current
state: `a.opponents.includes(b.id)`. -/
def havePlayed (ps : List Player) (aId bId : Nat) : Bool :=
  (getP ps aId).opponents.contains bId

def pushOpp (ps : List Player) (pid oppId : Nat) : List Player :=
  updateFirst ps pid (fun p => { p with opponents := p.opponents ++ [oppId] })

def pushCol (ps : List Player) (pid : Nat) (c : Col) : List Player :=
  updateFirst ps pid (fun p => { p with colors := p.colors ++ [c] })

/-- The post-pairing mutation of both players' `opponents` and `colors`
(pairingEngine.js 441-453 and 493-505).  Updates run in program order
with re-lookup, reproducing the aliasing of the source's object
mutations — including the case where both sides are the same player. -/
def recordGame (ps : List Player) (aId bId wId : Nat) : List Player :=
  let ps1 := if (getP ps aId).opponents.contains bId then ps else pushOpp ps aId bId
  let ps2 := if (getP ps1 bId).opponents.contains aId then ps1 else pushOpp ps1 bId aId
  if wId = aId then pushCol (pushCol ps2 aId Col.W) bId Col.B
  else pushCol (pushCol ps2 aId Col.B) bId Col.W

/-- The engine's initial sort comparator (pairingEngine.js 376-380):
score descending, rating descending, name ascending. -/
def engineCmp (a b : Player) : ℤ :=
  if b.score ≠ a.score then b.score - a.score
  else if (b.rating : ℤ) ≠ (a.rating : ℤ) then (b.rating : ℤ) - (a.rating : ℤ)
  else nameCmp a.name b.name

/-- `seedCompare` (pairingEngine.js 342-345): rating descending, name
ascending. -/
def seedCompare (a b : Player) : ℤ :=
  if (b.rating : ℤ) ≠ (a.rating : ℤ) then (b.rating : ℤ) - (a.rating : ℤ)
  else nameCmp a.name b.name

/-- The bye-eligibility comparator (pairingEngine.js 512):
`a.score - b.score || (a.rating||0) - (b.rating||0)`. -/
def byeCmp (a b : Player) : ℤ :=
  if a.score ≠ b.score then a.score - b.score
  else (a.rating : ℤ) - (b.rating : ℤ)

def addToGroups (gs : List (ℤ × List Player)) (key : ℤ) (p : Player) :
    List (ℤ × List Player) :=
  match gs with
  | [] => [(key, [p])]
  | (k, l) :: rest =>
      if k = key then (k, l ++ [p]) :: rest else (k, l) :: addToGroups rest key p

/-- The insertion-ordered `byScore` map (pairingEngine.js 383-388), keyed
by `score.toFixed(3)`. -/
def buildGroups (ps : List Player) : List (ℤ × List Player) :=
  ps.foldl (fun gs p => addToGroups gs (toFixed3 p.score) p) []

/-- The within-group pairing loop (pairingEngine.js 407-454).  `top` holds
the ids still to process, `i` the current loop index, `bottom` the ids of
the mutable bottom half.  The fallback scan for `!bottom[j]._used` always
selects index 0 when `bottom` is non-empty, because `_used` is never
written anywhere in the source; `bottom` is non-empty whenever the
fallback runs, so the `chosenIdx === -1` float branch after it is dead. -/
def pairGroupLoop (ps : List Player) (top : List Nat) (i : Nat) (bottom : List Nat)
    (floated : List Nat) (acc : List Pairing) : List Player × List Nat × List Pairing :=
  match top with
  | [] => (ps, floated, acc)
  | t :: rest =>
    if bottom.length ≤ i then
      pairGroupLoop ps rest (i + 1) bottom (floated ++ [t]) acc
    else
      let chosenIdx :=
        match (bottom.drop i).findIdx? (fun bId => ¬ havePlayed ps t bId) with
        | some j => i + j
        | none => 0
      let chosen := bottom.getD chosenIdx 0
      let bottom' := bottom.eraseIdx chosenIdx
      let wb := chooseColorsForPair (getP ps t) (getP ps chosen)
      let ps' := recordGame ps t chosen wb.1
      pairGroupLoop ps' rest (i + 1) bottom' floated
        (acc ++ [{ whiteId := wb.1, blackId := some wb.2, isBye := false,
                   result := none, tdNote := none }])

/-- The loop over score groups (pairingEngine.js 397-466): floated players
are appended to the next group's member list (`pending` carries them into
the next iteration); floats of the last group become its `leftover`,
returned separately. -/
def runGroups (ps : List Player) (pending : List Nat) (groups : List (List Nat))
    (acc : List Pairing) : List Player × List Nat × List Pairing :=
  match groups with
  | [] => (ps, pending, acc)
  | g :: rest =>
    let gg := g ++ pending
    let topCount := (gg.length + 1) / 2
    let res := pairGroupLoop ps (gg.take topCount) 0 (gg.drop topCount) [] []
    runGroups res.1 res.2.1 rest (acc ++ res.2.2)

/-- The greedy loop over the unpaired queue (pairingEngine.js 483-506):
pop the head, pick the first queue entry it has not met (index 0 as
fallback), splice it out, pair, and repeat while two entries remain.
The fuel argument only bounds the recursion depth; every iteration
shortens the queue by two, so fuel equal to the initial queue length
(as supplied by `pairQueue`) is never exhausted. -/
def pairQueueGo : Nat → List Player → List Nat → List Pairing →
    List Player × List Pairing
  | _, ps, [], acc => (ps, acc)
  | _, ps, [_], acc => (ps, acc)
  | 0, ps, _, acc => (ps, acc)
  | fuel + 1, ps, a :: b :: rest, acc =>
    let q := b :: rest
    let idx := (q.findIdx? (fun x => ¬ havePlayed ps a x)).getD 0
    let chosen := q.getD idx 0
    let q' := q.eraseIdx idx
    let wb := chooseColorsForPair (getP ps a) (getP ps chosen)
    let ps' := recordGame ps a chosen wb.1
    pairQueueGo fuel ps' q' (acc ++ [{ whiteId := wb.1, blackId := some wb.2, isBye := false,
                                       result := none, tdNote := none }])

/-- The `while (unpaired.length >= 2)` loop entry point. -/
def pairQueue (ps : List Player) (queue : List Nat) (acc : List Pairing) :
    List Player × List Pairing :=
  pairQueueGo queue.length ps queue acc

/-- `uscfPairingEngine` (pairingEngine.js 373-520).  Returns the pairing
list and the updated (cloned, withdrawn-filtered, sorted) player list. -/
def uscfPairingEngine (playersRaw : List Player) : List Pairing × List Player :=
  let players := jsSortBy engineCmp (playersRaw.filter (fun p => ¬ p.withdrawn))
  let groups1 := jsSortBy (fun a b => b.1 - a.1) (buildGroups players)
  let groups := groups1.map (fun g => (jsSortBy seedCompare g.2).map (·.id))
  let r1 := runGroups players [] groups []
  let ps2 := r1.1
  let leftover := r1.2.1
  let pairings1 := r1.2.2
  let pairedIds := pairings1.foldl
    (fun s pr => (s ++ [pr.whiteId]) ++ (match pr.blackId with | some b => [b] | none => []))
    ([] : List Nat)
  let unpaired := (ps2.filter (fun p => ¬ pairedIds.contains p.id)).map (·.id) ++ leftover
  let r2 := pairQueue ps2 unpaired pairings1
  let ps3 := r2.1
  let pairings2 := r2.2
  let remaining := ps3.filter
    (fun p => ¬ pairings2.any (fun pr => pr.whiteId = p.id ∨ pr.blackId = some p.id))
  if remaining.length = 1 then
    let sortedRem := jsSortBy byeCmp remaining
    let candidate := (sortedRem.find? (fun p => ¬ p.hadBye)).getD
      ((sortedRem.head?).getD (dummyPlayer 0))
    let ps4 := updateFirst ps3 candidate.id (fun p => { p with hadBye := true })
    (pairings2 ++ [{ whiteId := candidate.id, blackId := none, isBye := true,
                     result := some "1-0", tdNote := some "auto-bye" }], ps4)
  else (pairings2, ps3)

/-- Map-lookup semantics of `new Map(players.map(p => [p.id, p]))`: for a
duplicated id the last entry wins. -/
def byIdGet (ps : List Player) (pid : Nat) : Option Player :=
  (ps.filter (fun p => p.id = pid)).getLast?

/-- `byId.get(id)?.score || 0`: the current score of an opponent looked up
in the full player list, 0 when the id does not resolve. -/
def oppScoreOf (ps : List Player) (oid : Nat) : ℤ :=
  ((byIdGet ps oid).map (·.score)).getD 0

/-- `computeTieBreaks` (pairingEngine.js 523-553; the copy in `src/App.js`
lines 172-197 is identical).  Writes the four tiebreak fields, each through
`toFixed(3)`.  `byId` is built over the full input list, withdrawn players
included; an opponent id absent from the list contributes `|| 0`. -/
def computeTieBreaks (players : List Player) : List Player :=
  players.map (fun p =>
    let oppScores := jsSortBy (fun a b => a - b) (p.opponents.map (oppScoreOf players))
    let buch := oppScores.sum
    let median := if 2 < oppScores.length then buch - oppScores.headD 0 - oppScores.getLastD 0
      else buch
    let sb := p.results.foldl (fun s r =>
      if r.isBye then s
      else match r.oppId.bind (byIdGet players) with
        | none => s
        | some opp =>
            if r.result = 1000 then s + opp.score
            else if r.result = 500 then s + opp.score / 2
            else s) 0
    let sorted := jsSortBy (fun (a b : ResultEntry) => (a.round : ℤ) - (b.round : ℤ)) p.results
    let cum := (sorted.foldl (fun rc r => (rc.1 + r.result, rc.2 + (rc.1 + r.result)))
      ((0 : ℤ), (0 : ℤ))).2
    { p with buchholz := toFixed3 buch, median := toFixed3 median,
             sb := toFixed3 sb, cumulative := toFixed3 cum })

/-- Section state as stored by the Firestore backend: the section document
fields relevant to pairing plus the players and rounds subcollections. -/
structure SectionState where
  locked : Bool
  plannedRounds : Nat
  players : List Player
  rounds : List Round
deriving DecidableEq, Repr

/-- The per-player batch update of `startNextRound`
(firestoreService.js 145-158) for a player without a bye this round: walk
the pairings and extend `opponents` and `colors`.  Non-bye pairings always
carry a `blackId`, so the `getD 0` default on it is never observed. -/
def updOppCols (pairings : List Pairing) (p : Player) : Player :=
  pairings.foldl (fun q pp =>
    if pp.isBye then q
    else
      let q1 := if pp.whiteId = q.id ∧ ¬ q.opponents.contains (pp.blackId.getD 0) then
          { q with opponents := q.opponents ++ [pp.blackId.getD 0] } else q
      let q2 := if pp.blackId = some q1.id ∧ ¬ q1.opponents.contains pp.whiteId then
          { q1 with opponents := q1.opponents ++ [pp.whiteId] } else q1
      let q3 := if pp.whiteId = q2.id then { q2 with colors := q2.colors ++ [Col.W] } else q2
      if pp.blackId = some q3.id then { q3 with colors := q3.colors ++ [Col.B] } else q3) p

/-- `startNextRound` (firestoreService.js 113-163): run the pairing engine
over the stored players, append round number `|rounds| + 1`, credit byes
immediately (`score + 1`, `hadBye`, bye `results` entry) and extend
`opponents`/`colors` of game participants.  The function consults neither
`locked` nor `plannedRounds`. -/
def startNextRound (s : SectionState) : SectionState :=
  let pairings := (uscfPairingEngine s.players).1
  let nextRoundNumber := s.rounds.length + 1
  let players' := s.players.map (fun p =>
    match pairings.find? (fun pp => pp.isBye ∧ pp.whiteId = p.id) with
    | some _ =>
        { p with
            score := p.score + 1000
            hadBye := true
            results := p.results ++
              [{ round := nextRoundNumber, oppId := none, result := 1000, isBye := true }] }
    | none => updOppCols pairings p)
  { s with players := players',
           rounds := s.rounds ++ [{ number := nextRoundNumber, pairings := pairings }] }

/-- JavaScript truthiness of a nullable string (`if (prev)`): `null` and
`""` are falsy. -/
def truthyStr (o : Option String) : Bool :=
  match o with
  | none => false
  | some s => s ≠ ""

/-- The state touched by the `updateResult` transaction: the round
document and the players subcollection. -/
structure TxState where
  round : Round
  players : List Player
deriving DecidableEq, Repr

/-- One `tx.update(playerRef, {score, results})`: overwrite the two fields
of the (unique) player document with that id. -/
def setPR (ps : List Player) (pid : Nat) (sc : ℤ) (rs : List ResultEntry) : List Player :=
  updateFirst ps pid (fun p => { p with score := sc, results := rs })

/-- `tx.update(roundRef, {pairings: updatedPairings})`
(firestoreService.js 227-230): store the new token on the addressed
pairing. -/
def setPairingResult (r : Round) (i : Nat) (tok : String) : Round :=
  match r.pairings[i]? with
  | none => r
  | some pr => { r with pairings := r.pairings.set i { pr with result := some tok } }

/-- `updateResult` (firestoreService.js 166-232), the Firestore
transaction body as a pure state transformer.  All reads (`tx.get`) happen
first and are bound to `pW`/`pB`; every later `tx.update` computes its
fields from those snapshots, and updates apply in program order, the later
one overwriting the earlier for the same document.  Thrown errors abort
the transaction, leaving the state unchanged. -/
def updateResult (st : TxState) (pairingIndex : Nat) (newResult : String) :
    Except String TxState :=
  match st.round.pairings[pairingIndex]? with
  | none => .error "Pairing not found"
  | some pairing =>
    let n := st.round.number
    let pW := findP st.players pairing.whiteId
    let pB := pairing.blackId.bind (findP st.players)
    let prev := pairing.result
    let ps1 :=
      if truthyStr prev then
        let prevPts := ptsFromStr prev
        let psA := match pW with
          | some w => setPR st.players pairing.whiteId (toFixed3 (w.score - prevPts.1))
              (w.results.filter (fun r =>
                ¬ (r.round = n ∧ r.oppId = pairing.blackId ∧ r.isBye = pairing.isBye)))
          | none => st.players
        match pB, pairing.blackId with
          | some b, some bId => setPR psA bId (toFixed3 (b.score - prevPts.2))
              (b.results.filter (fun r => ¬ (r.round = n ∧ r.oppId = some pairing.whiteId)))
          | _, _ => psA
      else st.players
    let newPts := ptsFromStr (some newResult)
    if pairing.isBye then
      match pW with
      | none => .error "Player missing"
      | some w =>
        let ps2 := setPR ps1 pairing.whiteId (toFixed3 (w.score + newPts.1))
          ((w.results.filter (fun r => ¬ (r.round = n ∧ r.isBye))) ++
            [{ round := n, oppId := none, result := newPts.1, isBye := true }])
        .ok { round := setPairingResult st.round pairingIndex newResult, players := ps2 }
    else
      match pW, pB, pairing.blackId with
      | some w, some b, some bId =>
        let ps2 := setPR ps1 pairing.whiteId (toFixed3 (w.score + newPts.1))
          ((w.results.filter (fun r => ¬ (r.round = n ∧ r.oppId = pairing.blackId))) ++
            [{ round := n, oppId := pairing.blackId, result := newPts.1, isBye := false }])
        let ps3 := setPR ps2 bId (toFixed3 (b.score + newPts.2))
          ((b.results.filter (fun r => ¬ (r.round = n ∧ r.oppId = some pairing.whiteId))) ++
            [{ round := n, oppId := some pairing.whiteId, result := newPts.2, isBye := false }])
        .ok { round := setPairingResult st.round pairingIndex newResult, players := ps3 }
      | _, _, _ => .error "Both players must exist"

/-- `tdForceColor` (firestoreService.js 273-293) as a pure transformer of
the round document: if the addressed pairing's `whiteId` differs from the
requested id, set `whiteId` to it and `blackId` to the previous `whiteId`
(discarding the previous `blackId`); then append the note to `tdNote`. -/
def tdForceColor (r : Round) (boardIndex : Nat) (whitePlayerId : Nat)
    (note : String) : Except String Round :=
  match r.pairings[boardIndex]? with
  | none => .error "Pairing not found"
  | some pairing =>
    let updated :=
      if pairing.whiteId ≠ whitePlayerId then
        { pairing with whiteId := whitePlayerId, blackId := some pairing.whiteId }
      else pairing
    let updated := { updated with tdNote := some ((updated.tdNote.getD "") ++ " | " ++ note) }
    .ok { r with pairings := r.pairings.set boardIndex updated }

/-- Number of bye pairings in a pairing list. -/
def countByes (prs : List Pairing) : Nat := (prs.filter (·.isBye)).length

/-- A freshly registered player (`addPlayer` defaults: score 0, empty
histories, no bye, not withdrawn). -/
def freshPlayer (i : Nat) (nm : String) (rt : Nat) : Player :=
  { dummyPlayer i with name := nm, rating := rt }

/-- The four-player round-1 roster of spec scenario 1:
`A(1800), B(1600), C(1400), D(1200)`, ids 1-4. -/
def fourPlayers : List Player :=
  [freshPlayer 1 "A" 1800, freshPlayer 2 "B" 1600,
   freshPlayer 3 "C" 1400, freshPlayer 4 "D" 1200]

/-- Two equal-rating players with empty histories, used to exhibit a
standings tie. -/
def tiedPair : List Player := [freshPlayer 1 "Alice" 1200, freshPlayer 2 "Bob" 1200]

/-- Player with one White in history, rated 1500 (colour-rule data). -/
def colorA : Player := { freshPlayer 1 "A" 1500 with colors := [Col.W] }

/-- Player with colours `[W, B, W]`, rated 1000 (colour-rule data). -/
def colorB : Player := { freshPlayer 2 "B" 1000 with colors := [Col.W, Col.B, Col.W] }

/-- Player with one White in history, rated 1000 (copy-divergence data). -/
def divA : Player := { freshPlayer 1 "A" 1000 with colors := [Col.W] }

/-- Player with colours `[B, W, B]`, rated 1000 (copy-divergence data). -/
def divB : Player := { freshPlayer 2 "B" 1000 with colors := [Col.B, Col.W, Col.B] }

/-- A one-board round between players 1 and 2 with no recorded result. -/
def demoRound : Round :=
  { number := 1
    pairings := [{ whiteId := 1, blackId := some 2, isBye := false,
                   result := none, tdNote := none }] }

/-- Transaction state for the round of `demoRound` over two fresh
players. -/
def demoTx : TxState :=
  { round := demoRound, players := [freshPlayer 1 "A" 1800, freshPlayer 2 "B" 1600] }

/-- Transaction state in which board 0 already carries the result `1-0`
and both players' scores and histories were credited accordingly. -/
def creditedTx : TxState :=
  { round := { number := 1
               pairings := [{ whiteId := 1, blackId := some 2, isBye := false,
                              result := some "1-0", tdNote := none }] }
    players :=
      [{ freshPlayer 1 "A" 1800 with
          score := 1000
          opponents := [2]
          colors := [Col.W]
          results := [{ round := 1, oppId := some 2, result := 1000, isBye := false }] },
       { freshPlayer 2 "B" 1600 with
          score := 0
          opponents := [1]
          colors := [Col.B]
          results := [{ round := 1, oppId := some 1, result := 0, isBye := false }] }] }

/-- An unlocked section with zero planned rounds and no rounds yet. -/
def unlockedSection : SectionState :=
  { locked := false, plannedRounds := 0, players := fourPlayers, rounds := [] }

/-- A roster with a single non-withdrawn fresh player (odd roster size). -/
def soloRoster : List Player := [freshPlayer 1 "Solo" 1200]

/-- A player whose only opponent is the withdrawn player 2. -/
def buchP : Player := { freshPlayer 1 "P" 1200 with opponents := [2] }

/-- A withdrawn player with one point (1000 milli-points) on the board. -/
def buchQ : Player := { freshPlayer 2 "Q" 1100 with score := 1000, withdrawn := true }

/-- Player with one Black in history, rated 1500 (colour-rule witness
data). -/
def balA : Player := { freshPlayer 3 "E" 1500 with colors := [Col.B] }

/-- Player with one White in history, rated 1400 (colour-rule witness
data). -/
def balB : Player := { freshPlayer 4 "F" 1400 with colors := [Col.W] }

/-- Fresh player, rated 1700 (copy-agreement witness data). -/
def agreeA : Player := freshPlayer 5 "G" 1700

/-- Fresh player, rated 1650 (copy-agreement witness data). -/
def agreeB : Player := freshPlayer 6 "H" 1650

/-- Standings record on 3 points (comparator witness data). -/
def standA : Player := { freshPlayer 1 "P3" 1000 with score := 3000 }

/-- Standings record on 2 points (comparator witness data). -/
def standB : Player := { freshPlayer 2 "P2" 1000 with score := 2000 }

/-- Standings record on 1 point (comparator witness data). -/
def standC : Player := { freshPlayer 3 "P1" 1000 with score := 1000 }

theorem standingsCmp_lt_iff (a b : Player) :
    standingsCmp a b < 0 ↔
      (b.score < a.score ∨ (b.score = a.score ∧
        (b.buchholz < a.buchholz ∨ (b.buchholz = a.buchholz ∧
          (b.median < a.median ∨ (b.median = a.median ∧
            (b.sb < a.sb ∨ (b.sb = a.sb ∧
              (b.cumulative < a.cumulative ∨ (b.cumulative = a.cumulative ∧
                (b.rating : ℤ) < (a.rating : ℤ))))))))))) := by
  unfold standingsCmp
  split_ifs <;> omega

/-- C1, counterexample.  Two registered players with equal ratings and
empty histories are distinct rows of the standings (their names differ),
yet the standings comparator of `computeStandingsGrid` returns 0 on them:
the order it induces has a tie, so the comparator is not a strict total
order, and neither a direct-encounter step nor a name step breaks the
tie. -/
theorem C1_counterexample :
    standingsCmp (getP (computeTieBreaks tiedPair) 1) (getP (computeTieBreaks tiedPair) 2) = 0 ∧
    (getP (computeTieBreaks tiedPair) 1).name ≠ (getP (computeTieBreaks tiedPair) 2).name := by
  decide

/-- C1, amended.  The standings comparator orders players
lexicographically by descending score, buchholz, median, sb, cumulative
and rating only: it is antisymmetric and transitive, but it has no
direct-encounter step and no name step, and it returns 0 (a tie) exactly
on players that agree on all six numeric keys. -/
theorem C1_standings_comparator (a b c : Player) :
    standingsCmp a b = -(standingsCmp b a) ∧
    (standingsCmp a b < 0 → standingsCmp b c < 0 → standingsCmp a c < 0) ∧
    (standingsCmp a b = 0 ↔
      (a.score = b.score ∧ a.buchholz = b.buchholz ∧ a.median = b.median ∧
       a.sb = b.sb ∧ a.cumulative = b.cumulative ∧ a.rating = b.rating)) := by
  refine ⟨?_, ?_, ?_⟩
  · unfold standingsCmp
    split_ifs <;> omega
  · intro h1 h2
    rw [standingsCmp_lt_iff] at h1 h2 ⊢
    omega
  · unfold standingsCmp
    split_ifs <;> omega

/-- C1, witness: the comparator at three concrete standings records with
3, 2 and 1 points, instantiating the transitivity part. -/
theorem C1_witness : standingsCmp standA standC < 0 :=
  (C1_standings_comparator standA standB standC).2.1 (by decide) (by decide)

/-- C2, counterexample.  `colorA` has one White (at least as many Whites
as Blacks), `colorB` has two Whites and one Black (strictly more Whites
than Blacks), neither has a doubled last-two, so the claim's rule 4 would
give White to `colorA`; the code instead reaches the rating rule and
gives White to `colorB` (the code's rule 4 premise is `aW <= aB`, not
`aW >= aB`). -/
theorem C2_counterexample :
    lastTwo colorA.colors ≠ [Col.W, Col.W] ∧ lastTwo colorA.colors ≠ [Col.B, Col.B] ∧
    lastTwo colorB.colors ≠ [Col.W, Col.W] ∧ lastTwo colorB.colors ≠ [Col.B, Col.B] ∧
    countB colorA.colors ≤ countW colorA.colors ∧
    countB colorB.colors < countW colorB.colors ∧
    chooseColorsForPair colorA colorB ≠ (colorA.id, colorB.id) := by
  decide

/-- C2, amended.  When neither player's last two colours are a double,
the colour selector gives White to `pA` exactly when `pA` has at most as
many Whites as Blacks while `pB` has strictly more Whites than Blacks
(symmetrically for `pB`); if neither colour-balance premise fires, the
higher-rated player plays Black, and on equal ratings `pA` plays
White. -/
theorem C2_color_rules (pA pB : Player)
    (hA1 : lastTwo pA.colors ≠ [Col.W, Col.W]) (hA2 : lastTwo pA.colors ≠ [Col.B, Col.B])
    (hB1 : lastTwo pB.colors ≠ [Col.W, Col.W]) (hB2 : lastTwo pB.colors ≠ [Col.B, Col.B]) :
    chooseColorsForPair pA pB =
      (if countW pA.colors ≤ countB pA.colors ∧ countW pB.colors > countB pB.colors then
        (pA.id, pB.id)
      else if countW pB.colors ≤ countB pB.colors ∧ countW pA.colors > countB pA.colors then
        (pB.id, pA.id)
      else if pA.rating > pB.rating then (pB.id, pA.id)
      else (pA.id, pB.id)) := by
  simp only [chooseColorsForPair]
  rw [if_neg (fun h => hA1 h.1), if_neg (fun h => hA2 h.1),
      if_neg (fun h => hB1 h.1), if_neg (fun h => hB2 h.1)]

/-- C2, witness: the colour-balance rule at a concrete pair, `balA` with
history `[B]` and `balB` with history `[W]`. -/
theorem C2_witness :
    chooseColorsForPair balA balB =
      (if countW balA.colors ≤ countB balA.colors ∧ countW balB.colors > countB balB.colors then
        (balA.id, balB.id)
      else if countW balB.colors ≤ countB balB.colors ∧ countW balA.colors > countB balA.colors then
        (balB.id, balA.id)
      else if balA.rating > balB.rating then (balB.id, balA.id)
      else (balA.id, balB.id)) :=
  C2_color_rules balA balB (by decide) (by decide) (by decide) (by decide)

/-- C3, counterexample.  On `divA` (colours `[W]`) against `divB`
(colours `[B, W, B]`, equal rating), the pairing-engine copy gives White
to `divB` through its `bW <= bB && aW > aB` guard, while the Sheets copy
tests `aW > bB` there, misses the guard, and gives White to `divA`: the
two implementations do not compute the same assignment. -/
theorem C3_counterexample :
    chooseColorsForPair divA divB ≠ chooseColorsForPairSheets divA divB := by
  decide

/-- C3, amended.  The two copies of the colour selector are not
equivalent, but the one token they differ in is the only source of
divergence: whenever `aW > aB` and `aW > bB` have the same truth value,
both copies produce the same `(whiteId, blackId)` pair.  (This is a
sufficient condition only: on some inputs where the two guards differ,
later rules still happen to give the same colours.) -/
theorem C3_copy_agreement (pA pB : Player)
    (h : (countB pA.colors < countW pA.colors) ↔ (countB pB.colors < countW pA.colors)) :
    chooseColorsForPair pA pB = chooseColorsForPairSheets pA pB := by
  simp only [chooseColorsForPair, chooseColorsForPairSheets]
  split_ifs <;> first | rfl | omega

/-- C3, witness: the two copies agree on a concrete pair of fresh
players. -/
theorem C3_witness :
    chooseColorsForPair agreeA agreeB = chooseColorsForPairSheets agreeA agreeB :=
  C3_copy_agreement agreeA agreeB (by decide)

/-- C4, counterexample.  On the round-1 roster `A(1800), B(1600),
C(1400), D(1200)` the engine does not return the claimed list
`[(W=A, B=C), (W=B, B=D)]`. -/
theorem C4_counterexample :
    (uscfPairingEngine fourPlayers).1 ≠
      [{ whiteId := 1, blackId := some 3, isBye := false, result := none, tdNote := none },
       { whiteId := 2, blackId := some 4, isBye := false, result := none, tdNote := none }] := by
  decide

/-- C4, amended.  On the roster `A(1800), B(1600), C(1400), D(1200)` the
engine pairs the claimed opponents `{A, C}` and `{B, D}` on boards 1 and
2 with no bye, but with the colours reversed: rule 5 (higher-rated plays
Black) fires on the empty colour histories before the default rule, so
the result is `[(W=C, B=A), (W=D, B=B)]`. -/
theorem C4_round1_pairings :
    (uscfPairingEngine fourPlayers).1 =
      [{ whiteId := 3, blackId := some 1, isBye := false, result := none, tdNote := none },
       { whiteId := 4, blackId := some 2, isBye := false, result := none, tdNote := none }] ∧
    countByes (uscfPairingEngine fourPlayers).1 = 0 := by
  decide

/-- C5, counterexample.  `ptsFromStr` maps the out-of-set token `"2-0"`
to `(0, 0)` instead of failing, and `updateResult` applied with `"2-0"`
to a board that already carries `1-0` succeeds (no `InvalidResultToken`
error exists), rewrites White's stored results entry to 0 points, and
changes the players' state. -/
theorem C5_counterexample :
    ptsFromStr (some "2-0") = (0, 0) ∧
    ((updateResult creditedTx 0 "2-0").toOption.map
        (fun st => (findP st.players 1).map (·.results)))
      = some (some [{ round := 1, oppId := some 2, result := 0, isBye := false }]) ∧
    (updateResult creditedTx 0 "2-0").toOption.map (fun st => st.players)
      ≠ some creditedTx.players := by
  decide

/-- C5, amended.  Converting any token outside
`{"1-0", "0-1", "0.5-0.5", "½-½"}` yields the point pair `(0, 0)` rather
than an error, and `updateResult` invoked with such a token on a game
board whose round, board and players all resolve succeeds, storing the
token on the pairing (and crediting zero points). -/
theorem C5_invalid_token_accepted (s : String)
    (h1 : s ≠ "1-0") (h2 : s ≠ "0-1") (h3 : s ≠ "0.5-0.5") (h4 : s ≠ "½-½")
    (st : TxState) (i : Nat) (pr : Pairing) (w b : Player) (bId : Nat)
    (hpr : st.round.pairings[i]? = some pr) (hbye : pr.isBye = false)
    (hw : findP st.players pr.whiteId = some w)
    (hbid : pr.blackId = some bId) (hb : findP st.players bId = some b) :
    ptsFromStr (some s) = (0, 0) ∧
    (updateResult st i s).toOption.map (fun st' => st'.round) =
      some (setPairingResult st.round i s) := by
  constructor
  · simp only [ptsFromStr]
    split_ifs with g0 g1
    · rfl
    · rcases g1 with g | g
      · exact absurd g h3
      · exact absurd g h4
    · rfl
  · simp only [updateResult, hpr, hbye, hbid, Option.some_bind, hb, hw]
    rfl

/-- C5, witness: the amended statement at the concrete token `"2-0"` on
the one-board state `demoTx`. -/
theorem C5_witness :
    ptsFromStr (some "2-0") = (0, 0) ∧
    (updateResult demoTx 0 "2-0").toOption.map (fun st' => st'.round) =
      some (setPairingResult demoTx.round 0 "2-0") :=
  C5_invalid_token_accepted "2-0" (by decide) (by decide) (by decide) (by decide)
    demoTx 0 { whiteId := 1, blackId := some 2, isBye := false, result := none, tdNote := none }
    (freshPlayer 1 "A" 1800) (freshPlayer 2 "B" 1600) 2 rfl rfl rfl rfl rfl

/-- C6, counterexample.  On an unlocked section whose round count already
reaches `plannedRounds`, Pair Next Round neither fails with
`SectionNotLocked` nor with `AllRoundsStarted`: it creates a round and
changes player state. -/
theorem C6_counterexample :
    unlockedSection.locked = false ∧
    unlockedSection.plannedRounds ≤ unlockedSection.rounds.length ∧
    (startNextRound unlockedSection).rounds.length = unlockedSection.rounds.length + 1 ∧
    (startNextRound unlockedSection).players ≠ unlockedSection.players := by
  decide

/-- C6, amended.  `startNextRound` performs no `locked` check and no
`plannedRounds` check: on every section state it appends exactly one new
round, numbered `|rounds| + 1` and holding the engine's pairings, and its
behaviour is unchanged under arbitrary `locked` and `plannedRounds`
values. -/
theorem C6_no_guards (s : SectionState) (b : Bool) (m : Nat) :
    (startNextRound s).rounds =
      s.rounds ++ [{ number := s.rounds.length + 1,
                     pairings := (uscfPairingEngine s.players).1 }] ∧
    startNextRound { s with locked := b, plannedRounds := m } =
      { startNextRound s with locked := b, plannedRounds := m } := by
  constructor
  · simp only [startNextRound]
  · simp only [startNextRound]

/-- C6, witness: the amended statement at the concrete unlocked
section. -/
theorem C6_witness :
    (startNextRound unlockedSection).rounds =
      unlockedSection.rounds ++ [{ number := unlockedSection.rounds.length + 1,
                                   pairings := (uscfPairingEngine unlockedSection.players).1 }] ∧
    startNextRound { unlockedSection with locked := true, plannedRounds := 7 } =
      { startNextRound unlockedSection with locked := true, plannedRounds := 7 } :=
  C6_no_guards unlockedSection true 7

/-- C7, code bug.  Applying `1-0` to the fresh board of `demoTx` puts
White on 1000 milli-points (one point); applying the same token a second
time puts White on 2000 milli-points instead of leaving the state fixed:
inside the transaction the credit update is computed from the stale
pre-transaction snapshot and overwrites the retraction update, so
re-applying a result double-credits it. -/
theorem C7_double_apply_not_idempotent :
    ((updateResult demoTx 0 "1-0").toOption.map
        (fun st => (findP st.players 1).map (·.score)) = some (some 1000)) ∧
    (((updateResult demoTx 0 "1-0").bind (fun st => updateResult st 0 "1-0")).toOption.map
        (fun st => (findP st.players 1).map (·.score)) = some (some 2000)) ∧
    ((updateResult demoTx 0 "1-0").bind (fun st => updateResult st 0 "1-0")).toOption
      ≠ (updateResult demoTx 0 "1-0").toOption := by
  decide

/-- C8, failing input.  On the odd (size-1, none withdrawn) roster
`soloRoster` the engine emits no bye at all: the leftover float is
enqueued twice in the unpaired queue, meets its own duplicate, and is
paired against itself as an ordinary game, so no player remains for the
bye branch. -/
theorem C8_odd_roster_no_bye :
    soloRoster.length % 2 = 1 ∧
    (∀ p ∈ soloRoster, p.withdrawn = false) ∧
    countByes (uscfPairingEngine soloRoster).1 = 0 ∧
    (uscfPairingEngine soloRoster).1 =
      [{ whiteId := 1, blackId := some 1, isBye := false, result := none, tdNote := none }] := by
  decide

theorem jsInsert_perm (cmp : α → α → ℤ) (a : α) (l : List α) :
    (jsInsert cmp a l).Perm (a :: l) := by
  induction l with
  | nil => exact List.Perm.refl _
  | cons b t ih =>
      simp only [jsInsert]
      split
      · exact List.Perm.refl _
      · exact (ih.cons b).trans (List.Perm.swap a b t)

theorem jsSortBy_perm (cmp : α → α → ℤ) (l : List α) : (jsSortBy cmp l).Perm l := by
  suffices h : ∀ acc, ((l.foldl (fun acc a => jsInsert cmp a acc) acc).Perm (acc ++ l)) by
    simpa [jsSortBy] using h []
  induction l with
  | nil => intro acc; simp
  | cons a t ih =>
      intro acc
      simp only [List.foldl_cons]
      exact (ih _).trans (((jsInsert_perm cmp a acc).append_right t).trans List.perm_middle.symm)

/-- C9, counterexample.  Player 1's only opponent is the withdrawn player
2, who holds one point: the computed Buchholz of player 1 is that full
point, not 0 — withdrawn opponents are not excluded from the sum. -/
theorem C9_counterexample :
    buchQ.withdrawn = true ∧
    (getP (computeTieBreaks [buchP, buchQ]) 1).buchholz = 1000 := by
  decide

/-- C9, amended.  For every player of the section, the computed Buchholz
equals the sum, over the full `opponents` list, of the current score of
each opponent as looked up in the full player list — withdrawn opponents
included — with 0 for an id that does not resolve (bye rows never enter
`opponents`, so they contribute nothing). -/
theorem C9_buchholz_formula (ps : List Player) (k : Nat) (p : Player)
    (hp : ps[k]? = some p) :
    ((computeTieBreaks ps)[k]?).map (·.id) = some p.id ∧
    ((computeTieBreaks ps)[k]?).map (·.buchholz) =
      some (toFixed3 ((p.opponents.map (oppScoreOf ps)).sum)) := by
  have hsum : (jsSortBy (fun a b => a - b) (p.opponents.map (oppScoreOf ps))).sum
      = (p.opponents.map (oppScoreOf ps)).sum :=
    (jsSortBy_perm _ _).sum_eq
  refine ⟨?_, ?_⟩
  · simp only [computeTieBreaks, List.getElem?_map, hp, Option.map_some']
  · simp only [computeTieBreaks, List.getElem?_map, hp, Option.map_some']
    exact congrArg some (congrArg toFixed3 hsum)

/-- C9, witness: the amended formula at index 0 of the two-player section
`[buchP, buchQ]`. -/
theorem C9_witness :
    ((computeTieBreaks [buchP, buchQ])[0]?).map (·.id) = some buchP.id ∧
    ((computeTieBreaks [buchP, buchQ])[0]?).map (·.buchholz) =
      some (toFixed3 ((buchP.opponents.map (oppScoreOf [buchP, buchQ])).sum)) :=
  C9_buchholz_formula [buchP, buchQ] 0 buchP rfl

/-- C10, confirmed.  On an existing board, `tdForceColor` leaves the
pairing's players unchanged when the requested id already holds White;
otherwise it sets `whiteId` to the requested id and `blackId` to the
previous `whiteId` — even when the requested id occurs nowhere in the
pairing, silently discarding the previous `blackId`.  In every case the
note is appended to `tdNote`, `isBye`, `result` and all other boards are
untouched. -/
theorem C10_force_color (r : Round) (i wid : Nat) (note : String) (pr : Pairing)
    (h : r.pairings[i]? = some pr) :
    tdForceColor r i wid note =
      .ok ⟨r.number, r.pairings.set i
        ⟨(if pr.whiteId = wid then pr.whiteId else wid),
         (if pr.whiteId = wid then pr.blackId else some pr.whiteId),
         pr.isBye, pr.result,
         some ((pr.tdNote.getD "") ++ " | " ++ note)⟩⟩ := by
  simp only [tdForceColor, h]
  by_cases hw : pr.whiteId = wid
  · simp [hw]
  · simp [hw]

/-- C10, witness: forcing the absent id 5 to White on board 0 of
`demoRound` (players 1 and 2): player 1 moves to Black and player 2 is
discarded from the pairing. -/
theorem C10_witness :
    tdForceColor demoRound 0 5 "TD force color" =
      .ok ⟨demoRound.number, demoRound.pairings.set 0
        ⟨(if (1 : Nat) = 5 then 1 else 5),
         (if (1 : Nat) = 5 then some 2 else some 1),
         false, none,
         some (((none : Option String)).getD "" ++ " | " ++ "TD force color")⟩⟩ :=
  C10_force_color demoRound 0 5 "TD force color"
    { whiteId := 1, blackId := some 2, isBye := false, result := none, tdNote := none } rfl
